import Mathlib

/-!
Shallow embedding of `src/utils.py` (percentage / ATR-swing price-target
calculators, position sizing, quantity conversion).

Modelling choices:
* Python `Decimal` values are modelled as exact rationals (`ℚ`).  The module
  sets a 50-digit working precision, and every claim under study concerns
  values that this precision represents exactly, so rational arithmetic is a
  faithful model of the arithmetic that the claims mention.
* `PositionDirection` is the two-member enum of the application; the extra
  constructor `OTHER` stands for any value that is neither `LONG` nor `SHORT`
  (the `else` branches of the source handle exactly those).
* Python exceptions are modelled with `Except PyError`.  `PyError.valueError`
  stands for `ValueError` (the spec calls it `InvalidParameter`),
  `keyError` / `typeError` / `invalidOperation` stand for `KeyError`,
  `TypeError` and `decimal.InvalidOperation` respectively.
* The entries of the `analysis_data` dict are modelled by `PyVal`:
  `decimalLike q` is any value that `Decimal(...)` converts to the rational
  `q` (an int, a `Decimal`, a float, or a well-formed numeric string);
  `badString` is a string that `Decimal(...)` fails to parse (raising
  `decimal.InvalidOperation`); `nonConvertible` is a value of a type that
  `Decimal(...)` rejects with `TypeError` (e.g. `None` or a list).
* The diagnostic log emitted by `calculate_atr_swing_prices` on its
  degenerate field-error path is modelled by a `Bool` component of the
  result (`true` iff `logging.error` was called during the invocation).
-/

inductive PositionDirection where
  | LONG
  | SHORT
  | OTHER
deriving DecidableEq

inductive PyError where
  | keyError
  | typeError
  | invalidOperation
  | valueError
deriving DecidableEq

inductive PyVal where
  | decimalLike (q : ℚ)
  | badString
  | nonConvertible
deriving DecidableEq

/-- `Decimal(v)` applied to a dict entry: conversion succeeds on
`decimalLike`, raises `decimal.InvalidOperation` on an unparsable string and
`TypeError` on a value of an unsupported type. -/
def decimalOfVal : PyVal → Except PyError ℚ
  | .decimalLike q => .ok q
  | .badString => .error .invalidOperation
  | .nonConvertible => .error .typeError

/-- `Decimal(analysis_data[k])` for a key `k` that may be absent: a missing
key raises `KeyError`, otherwise the value is converted by `decimalOfVal`. -/
def decimalOfField : Option PyVal → Except PyError ℚ
  | none => .error .keyError
  | some v => decimalOfVal v

/-- The `analysis_data` dict, restricted to the three keys the source
reads (`atr`, `swingHigh`, `swingLow`); `none` models an absent key. -/
structure AnalysisData where
  atr : Option PyVal
  swingHigh : Option PyVal
  swingLow : Option PyVal
deriving DecidableEq

/-- Result dict of `calculate_percentage_based_prices`. -/
structure PercentagePrices where
  tp1_price : ℚ
  sl_price : ℚ
  tp2_price : ℚ
deriving DecidableEq

/-- Result dict of `calculate_atr_swing_prices`. -/
structure AtrPrices where
  tp_price : ℚ
  sl_price : ℚ
deriving DecidableEq

/-- Lines 33-37 of `utils.py`: the TP2 decimal factor is the provided
percentage over 100 when that percentage is truthy (nonzero) and positive,
and otherwise defaults to twice the TP1 factor.  (Python's
`if tp2_percentage and tp2_percentage > 0` is truthiness of the optional
float followed by the sign test.) -/
def tp2_factor (tp1_percentage : ℚ) : Option ℚ → ℚ
  | some p => if p ≠ 0 ∧ 0 < p then p / 100 else tp1_percentage / 100 * 2
  | none => tp1_percentage / 100 * 2

/-- `calculate_percentage_based_prices` (utils.py lines 12-66).
Raises `ValueError` for non-positive leverage and for a direction that is
neither `LONG` nor `SHORT`; otherwise returns the clamped price dict. -/
def calculate_percentage_based_prices (entry_price : ℚ)
    (direction : PositionDirection) (leverage : ℤ)
    (tp1_percentage sl_percentage : ℚ) (tp2_percentage : Option ℚ) :
    Except PyError PercentagePrices :=
  if leverage ≤ 0 then .error .valueError
  else
    let tp1_decimal_factor := tp1_percentage / 100
    let sl_decimal_factor := sl_percentage / 100
    let tp2_decimal_factor := tp2_factor tp1_percentage tp2_percentage
    let price_change_tp1 := entry_price * (tp1_decimal_factor / (leverage : ℚ))
    let price_change_sl := entry_price * (sl_decimal_factor / (leverage : ℚ))
    let price_change_tp2 := entry_price * (tp2_decimal_factor / (leverage : ℚ))
    match direction with
    | .LONG =>
        .ok ⟨max (entry_price + price_change_tp1) 0,
             max (entry_price - price_change_sl) 0,
             max (entry_price + price_change_tp2) 0⟩
    | .SHORT =>
        .ok ⟨max (entry_price - price_change_tp1) 0,
             max (entry_price + price_change_sl) 0,
             max (entry_price - price_change_tp2) 0⟩
    | .OTHER => .error .valueError

/-- Lines 30-57 of `utils.py` without the final non-negative clamp: the
values of the local variables `tp1_price`, `sl_price`, `tp2_price` just
before the return statement, when they exist (`none` when the function
raises before reaching line 62). -/
def percentage_raw_prices (entry_price : ℚ) (direction : PositionDirection)
    (leverage : ℤ) (tp1_percentage sl_percentage : ℚ)
    (tp2_percentage : Option ℚ) : Option (ℚ × ℚ × ℚ) :=
  if leverage ≤ 0 then none
  else
    let tp1_decimal_factor := tp1_percentage / 100
    let sl_decimal_factor := sl_percentage / 100
    let tp2_decimal_factor := tp2_factor tp1_percentage tp2_percentage
    let price_change_tp1 := entry_price * (tp1_decimal_factor / (leverage : ℚ))
    let price_change_sl := entry_price * (sl_decimal_factor / (leverage : ℚ))
    let price_change_tp2 := entry_price * (tp2_decimal_factor / (leverage : ℚ))
    match direction with
    | .LONG =>
        some (entry_price + price_change_tp1,
              entry_price - price_change_sl,
              entry_price + price_change_tp2)
    | .SHORT =>
        some (entry_price - price_change_tp1,
              entry_price + price_change_sl,
              entry_price - price_change_tp2)
    | .OTHER => none

/-- `calculate_position_size_usdt` (utils.py lines 68-77). -/
def calculate_position_size_usdt (risk_amount : ℚ) (leverage : ℤ) :
    Except PyError ℚ :=
  if leverage ≤ 0 then .error .valueError
  else if risk_amount < 0 then .error .valueError
  else .ok (risk_amount * (leverage : ℚ))

/-- `calculate_quantity_from_usdt` (utils.py lines 79-86). -/
def calculate_quantity_from_usdt (position_size_usdt : ℚ) (price : ℚ) :
    Except PyError ℚ :=
  if price ≤ 0 then .error .valueError
  else .ok (position_size_usdt / price)

/-- Default value of the `atr_multiplier_sl` parameter, `Decimal('1.5')`. -/
def atr_multiplier_sl_default : ℚ := 3 / 2

/-- Default value of the `atr_multiplier_tp` parameter, `Decimal('2.0')`. -/
def atr_multiplier_tp_default : ℚ := 2

/-- The body of the `try` block of `calculate_atr_swing_prices` (utils.py
lines 99-101): read and convert `atr`, `swingHigh`, `swingLow` in order,
propagating the first exception. -/
def readAnalysisFields (a : AnalysisData) : Except PyError (ℚ × ℚ × ℚ) :=
  match decimalOfField a.atr with
  | .error e => .error e
  | .ok atr =>
    match decimalOfField a.swingHigh with
    | .error e => .error e
    | .ok swing_high =>
      match decimalOfField a.swingLow with
      | .error e => .error e
      | .ok swing_low => .ok (atr, swing_high, swing_low)

/-- The `except (KeyError, TypeError)` clause at utils.py line 102 catches
exactly these two exception classes. -/
def caughtByExceptClause : PyError → Bool
  | .keyError => true
  | .typeError => true
  | .invalidOperation => false
  | .valueError => false

/-- Lines 106-111 of `utils.py` without the final non-negative clamp: the
values of `sl_price` and `tp_price` right after the direction branch, given
the already-converted `atr`, `swing_high`, `swing_low`; `none` on the
direction fall-through (line 112), which assigns no prices. The pair is
`(tp_price, sl_price)`. -/
def atr_swing_raw (entry_price : ℚ) (direction : PositionDirection)
    (atr swing_high swing_low atr_multiplier_sl atr_multiplier_tp : ℚ) :
    Option (ℚ × ℚ) :=
  match direction with
  | .LONG =>
      some (entry_price + atr * atr_multiplier_tp,
            swing_low - atr * atr_multiplier_sl)
  | .SHORT =>
      some (entry_price - atr * atr_multiplier_tp,
            swing_high + atr * atr_multiplier_sl)
  | .OTHER => none

/-- `calculate_atr_swing_prices` (utils.py lines 88-119).  The `Bool` in the
result records whether `logging.error` was called (it is called only on the
caught-exception path, line 103; the unrecognized-direction path at line 113
returns zeros silently).  An exception not caught by the `except` clause
propagates to the caller as `.error`. -/
def calculate_atr_swing_prices (entry_price : ℚ)
    (direction : PositionDirection) (analysis_data : AnalysisData)
    (atr_multiplier_sl atr_multiplier_tp : ℚ) :
    Except PyError (AtrPrices × Bool) :=
  match readAnalysisFields analysis_data with
  | .error e =>
      if caughtByExceptClause e then .ok (⟨0, 0⟩, true) else .error e
  | .ok (atr, swing_high, swing_low) =>
    match direction with
    | .LONG =>
        .ok (⟨max (entry_price + atr * atr_multiplier_tp) 0,
              max (swing_low - atr * atr_multiplier_sl) 0⟩, false)
    | .SHORT =>
        .ok (⟨max (entry_price - atr * atr_multiplier_tp) 0,
              max (swing_high + atr * atr_multiplier_sl) 0⟩, false)
    | .OTHER => .ok (⟨0, 0⟩, false)

/-! ### Helper lemmas -/

lemma percentage_raw_long_eq (entry_price : ℚ) (leverage : ℤ)
    (tp1_percentage sl_percentage : ℚ) (tp2_percentage : Option ℚ)
    (hlev : 0 < leverage) :
    percentage_raw_prices entry_price .LONG leverage tp1_percentage
        sl_percentage tp2_percentage =
      some (entry_price + entry_price * (tp1_percentage / 100 / (leverage : ℚ)),
            entry_price - entry_price * (sl_percentage / 100 / (leverage : ℚ)),
            entry_price + entry_price *
              (tp2_factor tp1_percentage tp2_percentage / (leverage : ℚ))) := by
  simp [percentage_raw_prices, hlev.not_le]

lemma percentage_raw_short_eq (entry_price : ℚ) (leverage : ℤ)
    (tp1_percentage sl_percentage : ℚ) (tp2_percentage : Option ℚ)
    (hlev : 0 < leverage) :
    percentage_raw_prices entry_price .SHORT leverage tp1_percentage
        sl_percentage tp2_percentage =
      some (entry_price - entry_price * (tp1_percentage / 100 / (leverage : ℚ)),
            entry_price + entry_price * (sl_percentage / 100 / (leverage : ℚ)),
            entry_price - entry_price *
              (tp2_factor tp1_percentage tp2_percentage / (leverage : ℚ))) := by
  simp [percentage_raw_prices, hlev.not_le]

lemma calculate_percentage_long_eq (entry_price : ℚ) (leverage : ℤ)
    (tp1_percentage sl_percentage : ℚ) (tp2_percentage : Option ℚ)
    (hlev : 0 < leverage) :
    calculate_percentage_based_prices entry_price .LONG leverage
        tp1_percentage sl_percentage tp2_percentage =
      .ok ⟨max (entry_price + entry_price * (tp1_percentage / 100 / (leverage : ℚ))) 0,
           max (entry_price - entry_price * (sl_percentage / 100 / (leverage : ℚ))) 0,
           max (entry_price + entry_price *
             (tp2_factor tp1_percentage tp2_percentage / (leverage : ℚ))) 0⟩ := by
  simp [calculate_percentage_based_prices, hlev.not_le]

lemma calculate_percentage_short_eq (entry_price : ℚ) (leverage : ℤ)
    (tp1_percentage sl_percentage : ℚ) (tp2_percentage : Option ℚ)
    (hlev : 0 < leverage) :
    calculate_percentage_based_prices entry_price .SHORT leverage
        tp1_percentage sl_percentage tp2_percentage =
      .ok ⟨max (entry_price - entry_price * (tp1_percentage / 100 / (leverage : ℚ))) 0,
           max (entry_price + entry_price * (sl_percentage / 100 / (leverage : ℚ))) 0,
           max (entry_price - entry_price *
             (tp2_factor tp1_percentage tp2_percentage / (leverage : ℚ))) 0⟩ := by
  simp [calculate_percentage_based_prices, hlev.not_le]

/-! ### Claim theorems -/

/-- C1: for positive entry price, positive leverage and a recognized
direction, the pre-clamp prices of `calculate_percentage_based_prices` are
`entry*(1 ± pct/(100*leverage))` with the signs of the claim (TP adds and SL
subtracts for LONG, inverted for SHORT), and the concrete scenario
`entry=30000, LONG, leverage=10, tp1=5, sl=2` yields
`tp1=30150, sl=29940, tp2=30300`. -/
theorem percentage_targets_formula (entry_price : ℚ) (leverage : ℤ)
    (tp1_percentage sl_percentage tp2_percentage : ℚ)
    (hentry : 0 < entry_price) (hlev : 0 < leverage)
    (htp2 : 0 < tp2_percentage) :
    percentage_raw_prices entry_price .LONG leverage tp1_percentage
        sl_percentage (some tp2_percentage) =
      some (entry_price * (1 + tp1_percentage / (100 * (leverage : ℚ))),
            entry_price * (1 - sl_percentage / (100 * (leverage : ℚ))),
            entry_price * (1 + tp2_percentage / (100 * (leverage : ℚ)))) ∧
    percentage_raw_prices entry_price .SHORT leverage tp1_percentage
        sl_percentage (some tp2_percentage) =
      some (entry_price * (1 - tp1_percentage / (100 * (leverage : ℚ))),
            entry_price * (1 + sl_percentage / (100 * (leverage : ℚ))),
            entry_price * (1 - tp2_percentage / (100 * (leverage : ℚ)))) ∧
    calculate_percentage_based_prices 30000 .LONG 10 5 2 none =
      .ok ⟨30150, 29940, 30300⟩ := by
  have hq : ((leverage : ℚ)) ≠ 0 := by
    exact_mod_cast hlev.ne'
  have hfac : tp2_factor tp1_percentage (some tp2_percentage) =
      tp2_percentage / 100 := by
    simp [tp2_factor, htp2, htp2.ne']
  refine ⟨?_, ?_, ?_⟩
  · rw [percentage_raw_long_eq _ _ _ _ _ hlev, hfac]
    refine congrArg some ?_
    refine Prod.ext ?_ (Prod.ext ?_ ?_) <;> (field_simp; ring)
  · rw [percentage_raw_short_eq _ _ _ _ _ hlev, hfac]
    refine congrArg some ?_
    refine Prod.ext ?_ (Prod.ext ?_ ?_) <;> (field_simp; ring)
  · norm_num [calculate_percentage_based_prices, tp2_factor]

/-- Witness for C1: at entry 30000, leverage 10, tp1 5%, sl 2%, tp2 12%,
the instantiated pre-clamp LONG prices evaluate to 30150, 29940, 30360. -/
theorem percentage_targets_formula_witness :
    percentage_raw_prices 30000 .LONG 10 5 2 (some 12) =
      some (30150, 29940, 30360) := by
  have h := (percentage_targets_formula 30000 10 5 2 12 (by norm_num)
    (by decide) (by norm_num)).1
  rw [h]
  norm_num

/-- C3: `calculate_percentage_based_prices`, `calculate_position_size_usdt`
and `calculate_quantity_from_usdt` raise `ValueError` (the spec's
`InvalidParameter`) and return no result exactly when their structural
precondition is violated: non-positive leverage or unrecognized direction
for the first, non-positive leverage or negative risk amount for the second,
non-positive price for the third. -/
theorem hard_fail_iff (entry_price : ℚ) (direction : PositionDirection)
    (leverage : ℤ) (tp1_percentage sl_percentage : ℚ)
    (tp2_percentage : Option ℚ) (risk_amount position_size_usdt price : ℚ) :
    (calculate_percentage_based_prices entry_price direction leverage
        tp1_percentage sl_percentage tp2_percentage = .error .valueError ↔
      leverage ≤ 0 ∨ direction = .OTHER) ∧
    (calculate_position_size_usdt risk_amount leverage = .error .valueError ↔
      leverage ≤ 0 ∨ risk_amount < 0) ∧
    (calculate_quantity_from_usdt position_size_usdt price =
        .error .valueError ↔ price ≤ 0) := by
  refine ⟨?_, ?_, ?_⟩
  · unfold calculate_percentage_based_prices
    split_ifs with h
    · simp [h]
    · cases direction <;> simp [h]
  · unfold calculate_position_size_usdt
    split_ifs with h h2
    · simp [h]
    · simp [h, h2]
    · simp [h, h2]
  · unfold calculate_quantity_from_usdt
    split_ifs with h <;> simp [h]

/-- C6: a TP2 percentage that is omitted, zero or negative selects the
default TP2 factor of exactly twice the TP1 factor, so omitting it yields
the same result as passing twice the TP1 percentage. -/
theorem tp2_default_doubling (entry_price : ℚ) (direction : PositionDirection)
    (leverage : ℤ) (tp1_percentage sl_percentage p : ℚ) (hp : p ≤ 0) :
    calculate_percentage_based_prices entry_price direction leverage
        tp1_percentage sl_percentage (some p) =
      calculate_percentage_based_prices entry_price direction leverage
        tp1_percentage sl_percentage none ∧
    calculate_percentage_based_prices entry_price direction leverage
        tp1_percentage sl_percentage none =
      calculate_percentage_based_prices entry_price direction leverage
        tp1_percentage sl_percentage (some (2 * tp1_percentage)) := by
  have h1 : tp2_factor tp1_percentage (some p) = tp2_factor tp1_percentage none := by
    simp [tp2_factor, hp.not_lt]
  have h2 : tp2_factor tp1_percentage none =
      tp2_factor tp1_percentage (some (2 * tp1_percentage)) := by
    by_cases htp1 : 0 < tp1_percentage
    · have hpos : (0 : ℚ) < 2 * tp1_percentage := by linarith
      simp only [tp2_factor, if_pos (And.intro hpos.ne' hpos)]
      ring
    · have : ¬ (0 : ℚ) < 2 * tp1_percentage := by
        intro hcon
        exact htp1 (by linarith)
      simp [tp2_factor, this]
  constructor
  · simp only [calculate_percentage_based_prices, h1]
  · simp only [calculate_percentage_based_prices, h2]

/-- Witness for C6 at entry 30000, LONG, leverage 10, tp1 5%, sl 2% and a
negative supplied TP2 percentage. -/
theorem tp2_default_doubling_witness :
    calculate_percentage_based_prices 30000 .LONG 10 5 2 (some (-3)) =
      calculate_percentage_based_prices 30000 .LONG 10 5 2 none ∧
    calculate_percentage_based_prices 30000 .LONG 10 5 2 none =
      calculate_percentage_based_prices 30000 .LONG 10 5 2 (some (2 * 5)) :=
  tp2_default_doubling 30000 .LONG 10 5 2 (-3) (by norm_num)

/-- C8: sizing then converting composes to `risk * leverage / price`
exactly, in exact (decimal) arithmetic. -/
theorem sizing_round_trip (risk_amount : ℚ) (leverage : ℤ) (price : ℚ)
    (hrisk : 0 ≤ risk_amount) (hlev : 0 < leverage) (hprice : 0 < price) :
    Except.bind (calculate_position_size_usdt risk_amount leverage)
      (fun s => calculate_quantity_from_usdt s price) =
      .ok (risk_amount * (leverage : ℚ) / price) := by
  simp [calculate_position_size_usdt, calculate_quantity_from_usdt,
    hlev.not_le, hprice.not_le, hrisk.not_lt, Except.bind]

/-- Witness for C8: risk 100 at leverage 5 gives a 500 USDT position, and
at price 25000 a quantity of 0.02 = 1/50. -/
theorem sizing_round_trip_witness :
    Except.bind (calculate_position_size_usdt 100 5)
      (fun s => calculate_quantity_from_usdt s 25000) = .ok (1 / 50) := by
  have h := sizing_round_trip 100 5 25000 (by norm_num) (by decide) (by norm_num)
  rw [h]
  norm_num

/-- C9: the entry-price precondition is never enforced: for any entry price
(zero and negative included), positive leverage and recognized direction,
`calculate_percentage_based_prices` returns a result without raising. -/
theorem entry_price_unchecked (entry_price : ℚ) (direction : PositionDirection)
    (leverage : ℤ) (tp1_percentage sl_percentage : ℚ)
    (tp2_percentage : Option ℚ) (hlev : 0 < leverage)
    (hdir : direction = .LONG ∨ direction = .SHORT) :
    ∃ r, calculate_percentage_based_prices entry_price direction leverage
      tp1_percentage sl_percentage tp2_percentage = .ok r := by
  rcases hdir with h | h <;> subst h
  · exact ⟨_, calculate_percentage_long_eq entry_price leverage tp1_percentage
      sl_percentage tp2_percentage hlev⟩
  · exact ⟨_, calculate_percentage_short_eq entry_price leverage tp1_percentage
      sl_percentage tp2_percentage hlev⟩

/-- Witness for C9 at the negative entry price -30000. -/
theorem entry_price_unchecked_witness :
    ∃ r, calculate_percentage_based_prices (-30000) .LONG 10 5 2 none =
      .ok r :=
  entry_price_unchecked (-30000) .LONG 10 5 2 none (by decide) (Or.inl rfl)

/-- C10: `calculate_quantity_from_usdt` puts no constraint on the sign of
the position size: a negative position size with a positive price yields the
negative quantity `position_size_usdt / price`, unclamped and without
raising. -/
theorem negative_position_size_passthrough (position_size_usdt price : ℚ)
    (hpos : position_size_usdt < 0) (hprice : 0 < price) :
    calculate_quantity_from_usdt position_size_usdt price =
      .ok (position_size_usdt / price) ∧
    position_size_usdt / price < 0 := by
  constructor
  · simp [calculate_quantity_from_usdt, hprice.not_le]
  · exact div_neg_of_neg_of_pos hpos hprice

/-- Witness for C10 at position size -100 and price 25000. -/
theorem negative_position_size_passthrough_witness :
    calculate_quantity_from_usdt (-100) 25000 = .ok ((-100) / 25000) ∧
    ((-100 : ℚ)) / 25000 < 0 :=
  negative_position_size_passthrough (-100) 25000 (by norm_num) (by norm_num)

/-- C4: every price field of a returned result is the non-negative clamp
`max computed 0` of the corresponding pre-clamp price, for both
`calculate_percentage_based_prices` and `calculate_atr_swing_prices` (on the
degenerate paths of the latter the result is the all-zero dict). -/
theorem outputs_clamped (entry_price : ℚ) (direction : PositionDirection)
    (leverage : ℤ) (tp1_percentage sl_percentage : ℚ)
    (tp2_percentage : Option ℚ) (a : AnalysisData)
    (atr_multiplier_sl atr_multiplier_tp : ℚ) :
    (∀ r, calculate_percentage_based_prices entry_price direction leverage
        tp1_percentage sl_percentage tp2_percentage = .ok r →
      ∃ t1 s t2, percentage_raw_prices entry_price direction leverage
          tp1_percentage sl_percentage tp2_percentage = some (t1, s, t2) ∧
        r = ⟨max t1 0, max s 0, max t2 0⟩) ∧
    (∀ r logged, calculate_atr_swing_prices entry_price direction a
        atr_multiplier_sl atr_multiplier_tp = .ok (r, logged) →
      (∃ atr swing_high swing_low,
        readAnalysisFields a = .ok (atr, swing_high, swing_low) ∧
        ∃ tp sp, atr_swing_raw entry_price direction atr swing_high swing_low
            atr_multiplier_sl atr_multiplier_tp = some (tp, sp) ∧
          r = ⟨max tp 0, max sp 0⟩) ∨ r = ⟨0, 0⟩) := by
  constructor
  · intro r h
    by_cases hl : leverage ≤ 0
    · simp [calculate_percentage_based_prices, hl] at h
    · cases direction with
      | LONG =>
        rw [calculate_percentage_long_eq _ _ _ _ _ (not_le.mp hl)] at h
        rw [percentage_raw_long_eq _ _ _ _ _ (not_le.mp hl)]
        exact ⟨_, _, _, rfl, (Except.ok.inj h).symm⟩
      | SHORT =>
        rw [calculate_percentage_short_eq _ _ _ _ _ (not_le.mp hl)] at h
        rw [percentage_raw_short_eq _ _ _ _ _ (not_le.mp hl)]
        exact ⟨_, _, _, rfl, (Except.ok.inj h).symm⟩
      | OTHER => simp [calculate_percentage_based_prices, hl] at h
  · intro r logged h
    unfold calculate_atr_swing_prices at h
    cases hra : readAnalysisFields a with
    | error e =>
      rw [hra] at h
      have h2 : (if caughtByExceptClause e = true
          then (Except.ok (⟨0, 0⟩, true) : Except PyError (AtrPrices × Bool))
          else Except.error e) = Except.ok (r, logged) := h
      by_cases hc : caughtByExceptClause e = true
      · rw [if_pos hc] at h2
        right
        exact congrArg Prod.fst (Except.ok.inj h2).symm
      · rw [if_neg hc] at h2
        exact absurd h2 (by simp)
    | ok q =>
      obtain ⟨atr, swing_high, swing_low⟩ := q
      rw [hra] at h
      cases direction with
      | LONG =>
        have h2 : (Except.ok (⟨max (entry_price + atr * atr_multiplier_tp) 0,
            max (swing_low - atr * atr_multiplier_sl) 0⟩, false) :
            Except PyError (AtrPrices × Bool)) = Except.ok (r, logged) := h
        left
        exact ⟨atr, swing_high, swing_low, rfl, _, _, rfl,
          congrArg Prod.fst (Except.ok.inj h2).symm⟩
      | SHORT =>
        have h2 : (Except.ok (⟨max (entry_price - atr * atr_multiplier_tp) 0,
            max (swing_high + atr * atr_multiplier_sl) 0⟩, false) :
            Except PyError (AtrPrices × Bool)) = Except.ok (r, logged) := h
        left
        exact ⟨atr, swing_high, swing_low, rfl, _, _, rfl,
          congrArg Prod.fst (Except.ok.inj h2).symm⟩
      | OTHER =>
        have h2 : (Except.ok (⟨0, 0⟩, false) :
            Except PyError (AtrPrices × Bool)) = Except.ok (r, logged) := h
        right
        exact congrArg Prod.fst (Except.ok.inj h2).symm

/-- Witness for C4: the result at entry 30000, LONG, leverage 10, tp1 5%,
sl 2% is the componentwise clamp of the pre-clamp prices. -/
theorem outputs_clamped_witness :
    ∃ t1 s t2, percentage_raw_prices 30000 .LONG 10 5 2 none =
        some (t1, s, t2) ∧
      (⟨30150, 29940, 30300⟩ : PercentagePrices) =
        ⟨max t1 0, max s 0, max t2 0⟩ :=
  (outputs_clamped 30000 .LONG 10 5 2 none
      ⟨some (.decimalLike 1), some (.decimalLike 2), some (.decimalLike 3)⟩
      1 1).1 ⟨30150, 29940, 30300⟩
    (by norm_num [calculate_percentage_based_prices, tp2_factor])

/-- C5: with convertible `atr`, `swingHigh`, `swingLow`, the pre-clamp
ATR/swing prices are `sl = swingLow - atr*sl_mult`, `tp = entry + atr*tp_mult`
for LONG and `sl = swingHigh + atr*sl_mult`, `tp = entry - atr*tp_mult` for
SHORT, the multipliers defaulting to 1.5 (SL) and 2.0 (TP); and
`calculate_atr_swing_prices` returns exactly the clamp of these prices at
the default multipliers. -/
theorem atr_formula (entry_price atr swing_high swing_low
      atr_multiplier_sl atr_multiplier_tp : ℚ) (a : AnalysisData)
    (ha : readAnalysisFields a = .ok (atr, swing_high, swing_low)) :
    atr_swing_raw entry_price .LONG atr swing_high swing_low
        atr_multiplier_sl atr_multiplier_tp =
      some (entry_price + atr * atr_multiplier_tp,
            swing_low - atr * atr_multiplier_sl) ∧
    atr_swing_raw entry_price .SHORT atr swing_high swing_low
        atr_multiplier_sl atr_multiplier_tp =
      some (entry_price - atr * atr_multiplier_tp,
            swing_high + atr * atr_multiplier_sl) ∧
    atr_multiplier_sl_default = 3 / 2 ∧ atr_multiplier_tp_default = 2 ∧
    calculate_atr_swing_prices entry_price .LONG a
        atr_multiplier_sl_default atr_multiplier_tp_default =
      .ok (⟨max (entry_price + atr * atr_multiplier_tp_default) 0,
            max (swing_low - atr * atr_multiplier_sl_default) 0⟩, false) ∧
    calculate_atr_swing_prices entry_price .SHORT a
        atr_multiplier_sl_default atr_multiplier_tp_default =
      .ok (⟨max (entry_price - atr * atr_multiplier_tp_default) 0,
            max (swing_high + atr * atr_multiplier_sl_default) 0⟩, false) := by
  refine ⟨rfl, rfl, rfl, rfl, ?_, ?_⟩ <;>
    (unfold calculate_atr_swing_prices; rw [ha])

/-- Witness for C5: entry 30000, atr 5, swingHigh 31000, swingLow 29500 at
the default multipliers give `tp = 30010` and `sl = 29492.5`. -/
theorem atr_formula_witness :
    calculate_atr_swing_prices 30000 .LONG
      ⟨some (.decimalLike 5), some (.decimalLike 31000),
       some (.decimalLike 29500)⟩
      atr_multiplier_sl_default atr_multiplier_tp_default =
      .ok (⟨30010, 58985 / 2⟩, false) := by
  have h := (atr_formula 30000 5 31000 29500 1 1
    ⟨some (.decimalLike 5), some (.decimalLike 31000),
     some (.decimalLike 29500)⟩ rfl).2.2.2.2.1
  rw [h]
  norm_num [atr_multiplier_sl_default, atr_multiplier_tp_default]

/-- C7: for valid calls with strictly positive computed deltas and results
not clamped by the zero floor, LONG results satisfy
`tp1_price > entry_price > sl_price` and SHORT results satisfy
`sl_price > entry_price > tp1_price`. -/
theorem price_ordering (entry_price : ℚ) (leverage : ℤ)
    (tp1_percentage sl_percentage : ℚ) (tp2_percentage : Option ℚ)
    (hentry : 0 < entry_price) (hlev : 0 < leverage)
    (htp1 : 0 < entry_price * (tp1_percentage / 100 / (leverage : ℚ)))
    (hsl : 0 < entry_price * (sl_percentage / 100 / (leverage : ℚ))) :
    (∀ r, calculate_percentage_based_prices entry_price .LONG leverage
        tp1_percentage sl_percentage tp2_percentage = .ok r →
      0 ≤ entry_price - entry_price * (sl_percentage / 100 / (leverage : ℚ)) →
      r.tp1_price > entry_price ∧ entry_price > r.sl_price) ∧
    (∀ r, calculate_percentage_based_prices entry_price .SHORT leverage
        tp1_percentage sl_percentage tp2_percentage = .ok r →
      0 ≤ entry_price - entry_price * (tp1_percentage / 100 / (leverage : ℚ)) →
      r.sl_price > entry_price ∧ entry_price > r.tp1_price) := by
  constructor
  · intro r h hnc
    rw [calculate_percentage_long_eq _ _ _ _ _ hlev] at h
    have hr := Except.ok.inj h
    subst hr
    constructor
    · exact lt_max_iff.mpr (Or.inl (by linarith))
    · exact max_lt (by linarith) hentry
  · intro r h hnc
    rw [calculate_percentage_short_eq _ _ _ _ _ hlev] at h
    have hr := Except.ok.inj h
    subst hr
    constructor
    · exact lt_max_iff.mpr (Or.inl (by linarith))
    · exact max_lt (by linarith) hentry

/-- Witness for C7: the LONG scenario entry 30000, leverage 10, tp1 5%,
sl 2% yields 30150 > 30000 > 29940. -/
theorem price_ordering_witness :
    (⟨30150, 29940, 30300⟩ : PercentagePrices).tp1_price > 30000 ∧
    (30000 : ℚ) > (⟨30150, 29940, 30300⟩ : PercentagePrices).sl_price :=
  (price_ordering 30000 10 5 2 none (by norm_num) (by decide) (by norm_num)
      (by norm_num)).1 ⟨30150, 29940, 30300⟩
    (by norm_num [calculate_percentage_based_prices, tp2_factor])
    (by norm_num)

/-- Counterexample to C2: (a) an `atr` field holding a string that fails
decimal parsing raises `decimal.InvalidOperation` to the caller, since the
`except (KeyError, TypeError)` clause does not catch it — the function does
not return the degenerate zero result there; (b) an unrecognized direction
returns the zero result silently, without logging a diagnostic. -/
theorem atr_soft_fail_counterexample :
    calculate_atr_swing_prices 100 .LONG
      ⟨some .badString, some (.decimalLike 1), some (.decimalLike 1)⟩
      (3 / 2) 2 = .error .invalidOperation ∧
    calculate_atr_swing_prices 100 .OTHER
      ⟨some (.decimalLike 1), some (.decimalLike 2), some (.decimalLike 3)⟩
      (3 / 2) 2 = .ok (⟨0, 0⟩, false) :=
  ⟨rfl, rfl⟩

/-- C2 (amended): `calculate_atr_swing_prices` soft-fails only for the
exceptions its `except` clause catches: a missing field (`KeyError`) or a
field of a type the decimal constructor rejects (`TypeError`) is logged and
yields the degenerate `{tp_price: 0, sl_price: 0}`; an unrecognized
direction yields the degenerate result without logging; but a string field
that fails decimal parsing propagates `decimal.InvalidOperation` to the
caller. -/
theorem atr_soft_fail_behavior (entry_price : ℚ)
    (direction : PositionDirection) (a : AnalysisData)
    (atr_multiplier_sl atr_multiplier_tp : ℚ) :
    ((readAnalysisFields a = .error .keyError ∨
      readAnalysisFields a = .error .typeError) →
      calculate_atr_swing_prices entry_price direction a
        atr_multiplier_sl atr_multiplier_tp = .ok (⟨0, 0⟩, true)) ∧
    (readAnalysisFields a = .error .invalidOperation →
      calculate_atr_swing_prices entry_price direction a
        atr_multiplier_sl atr_multiplier_tp = .error .invalidOperation) ∧
    (∀ q, readAnalysisFields a = .ok q → direction = .OTHER →
      calculate_atr_swing_prices entry_price direction a
        atr_multiplier_sl atr_multiplier_tp = .ok (⟨0, 0⟩, false)) := by
  refine ⟨?_, ?_, ?_⟩
  · rintro (h | h) <;> (unfold calculate_atr_swing_prices; rw [h]; rfl)
  · intro h
    unfold calculate_atr_swing_prices
    rw [h]
    rfl
  · rintro ⟨atr, swing_high, swing_low⟩ h rfl
    unfold calculate_atr_swing_prices
    rw [h]

/-- Witness for the amended C2: a record with no `atr` key soft-fails with
the logged degenerate result. -/
theorem atr_soft_fail_behavior_witness :
    calculate_atr_swing_prices 100 .LONG
      ⟨none, some (.decimalLike 2), some (.decimalLike 3)⟩ (3 / 2) 2 =
      .ok (⟨0, 0⟩, true) :=
  (atr_soft_fail_behavior 100 .LONG
    ⟨none, some (.decimalLike 2), some (.decimalLike 3)⟩ (3 / 2) 2).1
    (Or.inl rfl)
